import Mathlib

/-!
Shallow embedding of the transcription request/response pipeline of
`src/streamlit_app.py` (the TranscriptionClient core of the spec), together
with the script-level steps the spec's claims refer to.

Conventions of the embedding:
* Python byte strings are `List Nat`.
* The JSON dictionaries this app reads and builds only ever carry string
  values, so a parsed JSON object is a `List (String × String)` of key/value
  pairs (`response.json()` and the `{"error": ...}` dicts built by the code).
* The network is an oracle `Request → NetOutcome`: for the request actually
  issued it either yields an `HttpResponse` (whose body text and `.json()`
  outcome it fixes) or raises, carrying the exception's message.
* A Python exception escaping a region of code is `Except.error msg`.
* The uploaded file is a stateful stream: `read()` returns the bytes from the
  current position to the end and leaves the position at the end, exactly as
  Python's `file.read()` does.
* `transcribe_audio` additionally returns the list of network requests it
  attempted, so that claims about "a network call is made" and about what the
  issued request carries can be stated.
-/

namespace VoiceScribe

/-- Raw bytes of a Python bytes object. -/
abbrev Bytes := List Nat

/-- A parsed JSON object, restricted to the string-valued fields this app
reads (`text`, `error`): an ordered key/value list, exactly what
`response.json()` hands back for those fields. -/
abbrev Json := List (String × String)

/-- Python's `j[k]`-style lookup used through `"text" in result` /
`result["text"]`: the first entry with the given key, if any. -/
def Json.getStr (j : Json) (k : String) : Option String :=
  (List.find? (fun p => p.1 = k) j).map (fun p => p.2)

/-- Python's `k in result` membership test on a dict. -/
def Json.hasKey (j : Json) (k : String) : Bool :=
  List.any j (fun p => p.1 = k)

/-- An outbound HTTP request as `requests.post(API_URL, headers=HEADERS,
data=data)` builds it: the target URL, the header list, and the raw body
bytes.  Nothing else is put on the wire by the code. -/
structure Request where
  url : String
  headers : List (String × String)
  body : Bytes
deriving DecidableEq

/-- The remote response as the code observes it: `response.status_code`,
`response.text`, and the outcome of `response.json()` (which may raise on a
malformed body — `Except.error` with the exception's message). -/
structure HttpResponse where
  status_code : Nat
  text : String
  jsonOutcome : Except String Json

/-- What `requests.post` does for a given request: return a response, or
raise (connection failure, timeout, ...) with message `msg`. -/
inductive NetOutcome where
  | resp (r : HttpResponse)
  | exc (msg : String)

/-- The uploaded file object handed to `transcribe_audio`: its metadata
(name, declared MIME type, size) and its byte stream with the current read
position. -/
structure UploadedFile where
  name : String
  type : String
  size : Nat
  content : Bytes
  pos : Nat
deriving DecidableEq

/-- Python's `file.read()`: returns the bytes from the current position to
the end of the stream and leaves the position at the end.  A second `read()`
without a `seek` therefore returns the empty byte string. -/
def UploadedFile.read (f : UploadedFile) : Bytes × UploadedFile :=
  (f.content.drop f.pos, ⟨f.name, f.type, f.size, f.content, f.content.length⟩)

/-- Line 8: the fixed inference endpoint URL. -/
def API_URL : String :=
  "https://api-inference.huggingface.co/models/openai/whisper-large-v3-turbo"

/-- Line 12: `HEADERS = {"Authorization": f"Bearer {API_TOKEN}"}`, with the
token a deployment-time secret (a parameter of the embedding). -/
def HEADERS (token : String) : List (String × String) :=
  [("Authorization", "Bearer " ++ token)]

/-- The request `requests.post(API_URL, headers=HEADERS, data=data)` issues
for body bytes `data` (line 19). -/
def requestOf (token : String) (data : Bytes) : Request :=
  ⟨API_URL, HEADERS token, data⟩

/-- The `try:` body of `transcribe_audio` (lines 17-23): read the file, post
the bytes, and on status 200 parse the JSON body, otherwise build the
`API Error` dict.  `Except.error msg` is a Python exception escaping the
`try` body (a raise of `requests.post`, or of `response.json()` on a
malformed body).  Also returned: the file state after the read and the list
of attempted network requests. -/
def transcribe_try_body (token : String) (net : Request → NetOutcome)
    (file : UploadedFile) : Except String Json × UploadedFile × List Request :=
  let (data, file') := file.read
  let req := requestOf token data
  match net req with
  | .exc e => (.error e, file', [req])
  | .resp r =>
    if r.status_code = 200 then
      match r.jsonOutcome with
      | .ok j => (.ok j, file', [req])
      | .error e => (.error e, file', [req])
    else
      (.ok [("error", "API Error: " ++ toString r.status_code ++ " - " ++ r.text)],
       file', [req])

/-- Lines 15-25, `transcribe_audio(file)`: the `try` body wrapped in
`except Exception as e: return {"error": str(e)}`.  Every exception of the
body is converted into an `{"error": ...}` dict, so the function always
returns a value. -/
def transcribe_audio (token : String) (net : Request → NetOutcome)
    (file : UploadedFile) : Json × UploadedFile × List Request :=
  match transcribe_try_body token net file with
  | (.ok j, f, reqs) => (j, f, reqs)
  | (.error e, f, reqs) => ([("error", e)], f, reqs)

/-- Lines 28-30, `log_error(error_message)`: open `error_log.txt` in append
mode and write `f"{datetime.now()}: {error_message}\n"`.  The log file's
content is a string; `now` is the rendered timestamp. -/
def log_error (now : String) (error_message : String) (logContent : String) :
    String :=
  logContent ++ (now ++ ": " ++ error_message ++ "\n")

/-- The call `transcribe_audio(uploaded_file)` as seen by the caller's
`try`/`except` at lines 68-72: `Except.error` would be an exception escaping
the call.  `transcribe_audio` ends in `except Exception as e: return
{"error": str(e)}`, so the call always returns normally: the outcome is
always `.ok`. -/
def call_transcribe (token : String) (net : Request → NetOutcome)
    (file : UploadedFile) : Except String (Json × UploadedFile × List Request) :=
  Except.ok (transcribe_audio token net file)

/-- Lines 66-72 (Feature 6): `result = transcribe_audio(uploaded_file)`
under `try`, with `except Exception as e: log_error(str(e))`.  Returns the
`result` variable (`none` when the except path was taken and `result` was
never assigned), the file state, the attempted requests, and the log
content after the block. -/
def feature6 (token : String) (net : Request → NetOutcome) (now : String)
    (file : UploadedFile) (logContent : String) :
    Option Json × UploadedFile × List Request × String :=
  match call_transcribe token net file with
  | .ok (r, f, reqs) => (some r, f, reqs, logContent)
  | .error e => (none, file, [], log_error now e logContent)

/-- A Python attribute value of the uploaded-file object. -/
inductive AttrVal where
  | str (s : String)
  | num (n : Nat)
deriving DecidableEq

/-- The Python errors the script-level claims are about. -/
inductive PyErr where
  /-- `AttributeError`: the object has no attribute `attr`. -/
  | attributeError (attr : String)
  /-- `AttributeError`: `'NoneType' object has no attribute attr`. -/
  | noneAttributeError (attr : String)
  /-- `NameError`: name `v` is not defined. -/
  | nameError (v : String)
  /-- `TypeError` from an ill-typed operation. -/
  | typeError
deriving DecidableEq

/-- Modelled from the spec: the attribute set of the hosting framework's
uploaded-file object, which is not code of this repository.  Spec §3 gives
its metadata as `{name, declared_mime_type, size_bytes}` and §9 states that
the upload-timestamp attribute read at line 92 "does not exist on the
underlying file object in the real hosting framework". -/
def UploadedFile.attrs (f : UploadedFile) : List (String × AttrVal) :=
  [("name", .str f.name), ("type", .str f.type), ("size", .num f.size)]

/-- Python attribute access `f.<a>` on the uploaded-file object: the value
when the attribute exists, `AttributeError` otherwise. -/
def UploadedFile.getattr (f : UploadedFile) (a : String) : Except PyErr AttrVal :=
  match List.find? (fun p => p.1 = a) f.attrs with
  | some p => .ok p.2
  | none => .error (.attributeError a)

/-- Line 92: `response_time = time.time() - uploaded_file._timestamp`, with
`now` the value of `time.time()`.  The attribute access is evaluated first;
if it yields a non-numeric value the subtraction is a `TypeError`. -/
def response_time_step (now : Nat) (f : UploadedFile) : Except PyErr Nat :=
  (f.getattr "_timestamp").bind fun v =>
    match v with
    | .num t => .ok (now - t)
    | .str _ => .error .typeError

/-- Lines 66-93 up to the response-time computation: the Feature 6
transcription attempt followed by line 92's read of the upload-timestamp
attribute on the (post-read) file object.  Lines 75-89 in between only
render `result` and do not touch the file object. -/
def uploaded_branch_response_time (token : String) (net : Request → NetOutcome)
    (now : String) (nowT : Nat) (file : UploadedFile) (logContent : String) :
    Except PyErr Nat :=
  let (_, f', _, _) := feature6 token net now file logContent
  response_time_step nowT f'

/-- Lines 96-98 (Feature 11): `lang = st.selectbox(...)`; `if lang != "en":
result = transcribe_audio(uploaded_file)`.  Returns the `result` variable
after the block, the file state, and the requests attempted by the block. -/
def language_change_step (token : String) (net : Request → NetOutcome)
    (lang : String) (file : UploadedFile) (result : Json) :
    Json × UploadedFile × List Request :=
  if lang ≠ "en" then transcribe_audio token net file
  else (result, file, [])

/-- Lines 155-158 (Feature 21): `if retry_button: result =
transcribe_audio(uploaded_file)`.  Returns the `result` variable after the
block, the file state, and the requests attempted by the block. -/
def retry_step (token : String) (net : Request → NetOutcome) (pressed : Bool)
    (file : UploadedFile) (result : Json) : Json × UploadedFile × List Request :=
  if pressed then transcribe_audio token net file
  else (result, file, [])

/-- The top-level tail of the script (lines 146-169), which runs on every
execution, upload or not: line 150 evaluates `uploaded_file.name` (an
`AttributeError` on `None` when nothing was uploaded); then the retry block
may reassign `result`; then lines 161-169 evaluate `"text" in result`, a
`NameError` when the variable `result` was never assigned.  `resultVar` is
the state of the `result` variable reaching line 150 (`none` = never
assigned); the returned `Json` is the `result` the rendering tail reads. -/
def script_tail (token : String) (net : Request → NetOutcome)
    (uploaded : Option UploadedFile) (resultVar : Option Json)
    (retry_pressed : Bool) : Except PyErr Json :=
  match uploaded with
  | none => .error (.noneAttributeError "name")
  | some f =>
    let r2 : Option Json :=
      if retry_pressed then some (transcribe_audio token net f).1 else resultVar
    match r2 with
    | none => .error (.nameError "result")
    | some r => .ok r

/-- Number of newline characters in a string; a "single complete line" entry
contains exactly one, at its end. -/
def countNewlines (s : String) : Nat :=
  s.data.count '\n'

/-! ### Concrete fixtures used by counterexamples and witnesses -/

/-- A concrete uploaded file with payload bytes `[1, 2, 3]`, unread. -/
def file1 : UploadedFile := ⟨"a.wav", "audio/wav", 3, [1, 2, 3], 0⟩

/-- A concrete uploaded file whose payload bytes are empty. -/
def fileEmpty : UploadedFile := ⟨"e.wav", "audio/wav", 0, [], 0⟩

/-- A mocked remote endpoint answering every request with status 200 and
JSON body containing the field `text` with value `"hi"`. -/
def netOK : Request → NetOutcome :=
  fun _ => .resp ⟨200, "", .ok [("text", "hi")]⟩

/-- A mocked remote endpoint answering every request with status 503 and
body `"overloaded"`. -/
def net503 : Request → NetOutcome :=
  fun _ => .resp ⟨503, "overloaded", .error "Expecting value"⟩

/-- A mocked remote endpoint answering with the success status 201 and a
JSON body containing a `text` field. -/
def net201 : Request → NetOutcome :=
  fun _ => .resp ⟨201, "created", .ok [("text", "hi")]⟩

/-- A mocked remote endpoint answering with status 200 and a JSON body
containing both a `text` and an `error` field. -/
def netBoth : Request → NetOutcome :=
  fun _ => .resp ⟨200, "", .ok [("text", "a"), ("error", "b")]⟩

/-- A mocked transport failure: `requests.post` raises on every request. -/
def netDown : Request → NetOutcome :=
  fun _ => .exc "connection refused"

/-! ### Helper lemmas about `transcribe_audio` -/

/-- Whatever the network does, `transcribe_audio` leaves the file with its
read position at the end of the stream (a consequence of `file.read()`). -/
theorem transcribe_state_eq (token : String) (net : Request → NetOutcome)
    (file : UploadedFile) :
    (transcribe_audio token net file).2.1 =
      ⟨file.name, file.type, file.size, file.content, file.content.length⟩ := by
  cases hn : net (requestOf token (file.content.drop file.pos)) with
  | exc e => simp [transcribe_audio, transcribe_try_body, UploadedFile.read, hn]
  | resp r =>
    cases hj : r.jsonOutcome with
    | error e =>
      by_cases h : r.status_code = 200 <;>
        simp [transcribe_audio, transcribe_try_body, UploadedFile.read, hn, hj, h]
    | ok j =>
      by_cases h : r.status_code = 200 <;>
        simp [transcribe_audio, transcribe_try_body, UploadedFile.read, hn, hj, h]

/-- Whatever the network does, `transcribe_audio` attempts exactly one
network request: the POST of the unread bytes of the stream to `API_URL`
with the bearer header. -/
theorem transcribe_reqs_eq (token : String) (net : Request → NetOutcome)
    (file : UploadedFile) :
    (transcribe_audio token net file).2.2 =
      [requestOf token (file.content.drop file.pos)] := by
  cases hn : net (requestOf token (file.content.drop file.pos)) with
  | exc e => simp [transcribe_audio, transcribe_try_body, UploadedFile.read, hn]
  | resp r =>
    cases hj : r.jsonOutcome with
    | error e =>
      by_cases h : r.status_code = 200 <;>
        simp [transcribe_audio, transcribe_try_body, UploadedFile.read, hn, hj, h]
    | ok j =>
      by_cases h : r.status_code = 200 <;>
        simp [transcribe_audio, transcribe_try_body, UploadedFile.read, hn, hj, h]

/-- The upload-timestamp attribute is absent from the uploaded-file object,
so its lookup raises `AttributeError` whatever the file's state. -/
theorem getattr_timestamp (f : UploadedFile) :
    f.getattr "_timestamp" = .error (.attributeError "_timestamp") := rfl

/-! ### Claims -/

/-- C2: `transcribe_audio` never propagates an exception to its caller:
whatever the network and the file, the call returns a value — the `try`
body's value when it returns normally, and the `{"error": <message>}` dict
(a `Failure` carrying the underlying message) when the body raises with any
transport or parsing fault. -/
theorem transcribe_never_raises (token : String) (net : Request → NetOutcome)
    (file : UploadedFile) :
    (∃ j f reqs, transcribe_try_body token net file = (Except.ok j, f, reqs) ∧
        transcribe_audio token net file = (j, f, reqs)) ∨
    (∃ e f reqs, transcribe_try_body token net file = (Except.error e, f, reqs) ∧
        transcribe_audio token net file = ([("error", e)], f, reqs)) := by
  rcases h : transcribe_try_body token net file with ⟨out, f, reqs⟩
  cases out with
  | ok j => exact Or.inl ⟨j, f, reqs, rfl, by simp [transcribe_audio, h]⟩
  | error e => exact Or.inr ⟨e, f, reqs, rfl, by simp [transcribe_audio, h]⟩

/-- C8: on every run of the uploaded branch that reaches the "API Response
Time" step (line 92), whatever the transcription attempt did, the read of
the upload-timestamp attribute fails with `AttributeError` instead of
producing an elapsed-time value. -/
theorem response_time_attribute_missing (token : String)
    (net : Request → NetOutcome) (now : String) (nowT : Nat)
    (file : UploadedFile) (logContent : String) :
    uploaded_branch_response_time token net now nowT file logContent =
      .error (.attributeError "_timestamp") := rfl

/-- C10: on every run in which no file was uploaded, the top-level tail of
the script still executes and raises: line 150's `uploaded_file.name` is an
attribute access on `None`, so the script errors instead of rendering an
idle page.  Moreover, even on a run that passes line 150 with the `result`
variable never assigned and the retry button not pressed, line 161's read of
`result` raises `NameError`. -/
theorem script_tail_no_upload_raises (token : String)
    (net : Request → NetOutcome) (resultVar : Option Json)
    (retry_pressed : Bool) (f : UploadedFile) :
    script_tail token net none resultVar retry_pressed =
      .error (.noneAttributeError "name") ∧
    script_tail token net (some f) none false = .error (.nameError "result") :=
  ⟨rfl, rfl⟩

/-- C1: at the spec's own test input — a mocked remote response with status
503 and body `"overloaded"` — the Feature 6 block returns the
`Failure{ApiError}` dict whose detail contains `503`, but appends no entry
to the error log: the log content after the block is the unchanged prior
content, where the claim (and spec §8 property 2) demand exactly one new
entry.  `log_error` is reachable only through the caller's `except` branch,
which `transcribe_audio` makes dead by catching every exception itself. -/
theorem failure_appends_no_log_entry :
    feature6 "tok" net503 "2026-01-01T00:00:00" file1 "PRIOR LINE\n" =
      (some [("error", "API Error: 503 - overloaded")],
       ⟨"a.wav", "audio/wav", 3, [1, 2, 3], 3⟩,
       [requestOf "tok" [1, 2, 3]],
       "PRIOR LINE\n") := rfl

/-- C3, counterexample: the retry block (line 158) calls `transcribe_audio`
on the same file object the first attempt already read, so the request it
issues carries the stream's unread remainder — the empty byte string — and
not the original payload bytes `[1, 2, 3]`. -/
theorem retry_counterexample :
    ((retry_step "tok" netOK true
        (transcribe_audio "tok" netOK file1).2.1 []).2.2).map Request.body =
      [[]] ∧
    file1.content = [1, 2, 3] ∧ ([] : Bytes) ≠ [1, 2, 3] :=
  ⟨rfl, rfl, by decide⟩

/-- C3, amended: pressing retry after an attempt runs `transcribe_audio`
again on the same file object — a fresh request with no caching or reuse of
the prior outcome — but since `read()` consumed the stream, the retried
request's body is the empty remainder, not the original payload bytes. -/
theorem retry_amended (token : String) (net : Request → NetOutcome)
    (file : UploadedFile) (result0 : Json) :
    retry_step token net true (transcribe_audio token net file).2.1 result0 =
      transcribe_audio token net (transcribe_audio token net file).2.1 ∧
    (retry_step token net true
        (transcribe_audio token net file).2.1 result0).2.2 =
      [requestOf token []] := by
  constructor
  · rfl
  · show (transcribe_audio token net (transcribe_audio token net file).2.1).2.2
        = [requestOf token []]
    rw [transcribe_reqs_eq, transcribe_state_eq]
    simp

/-- C4, counterexample: an empty-byte payload is not rejected before the
network call — `transcribe_audio` still attempts exactly one request (with
an empty body), and the outcome is whatever the remote response determines
(here a success), not an `InputError`. -/
theorem empty_payload_counterexample :
    (transcribe_audio "tok" netOK fileEmpty).2.2 = [requestOf "tok" []] ∧
    (transcribe_audio "tok" netOK fileEmpty).2.2 ≠ [] ∧
    (transcribe_audio "tok" netOK fileEmpty).1 = [("text", "hi")] :=
  ⟨rfl, by decide, rfl⟩

/-- C4, amended: on a payload with no unread bytes the code performs the
network call anyway, posting an empty body (there is no empty-payload check
and no `InputError` kind in the code); no log entry is produced — the log
content after the Feature 6 block is unchanged. -/
theorem empty_payload_amended (token : String) (net : Request → NetOutcome)
    (now : String) (file : UploadedFile) (logContent : String)
    (h : file.content.drop file.pos = []) :
    (transcribe_audio token net file).2.2 = [requestOf token []] ∧
    (feature6 token net now file logContent).2.2.2 = logContent := by
  constructor
  · rw [transcribe_reqs_eq, h]
  · rfl

/-- Witness for `empty_payload_amended` at the concrete empty upload. -/
theorem empty_payload_amended_witness :
    (transcribe_audio "tok" netOK fileEmpty).2.2 = [requestOf "tok" []] ∧
    (feature6 "tok" netOK "T" fileEmpty "LOG").2.2.2 = "LOG" :=
  empty_payload_amended "tok" netOK "T" fileEmpty "LOG" rfl

/-- C5, counterexample: `201` is a success (2xx) status and the mocked JSON
body carries a `text` field, yet `transcribe_audio` returns the
`Failure{ApiError}` dict, not a success carrying that text: only status
exactly 200 is treated as success by the code. -/
theorem status_201_counterexample :
    200 ≤ 201 ∧ 201 < 300 ∧
    (transcribe_audio "tok" net201 file1).1 =
      [("error", "API Error: 201 - created")] ∧
    Json.getStr (transcribe_audio "tok" net201 file1).1 "text" = none :=
  ⟨by decide, by decide, rfl, rfl⟩

/-- C5, amended: a response with status exactly 200 has its parsed JSON body
returned as the result (so a body with a `text` field yields a success
carrying that text), while every non-200 status — other 2xx codes included —
yields `Failure{ApiError}` whose detail contains the status code and the
response body text. -/
theorem status_200_amended (token : String) (net : Request → NetOutcome)
    (file : UploadedFile) (r : HttpResponse)
    (hr : net (requestOf token (file.content.drop file.pos)) = .resp r) :
    (r.status_code = 200 → ∀ j, r.jsonOutcome = .ok j →
        (transcribe_audio token net file).1 = j) ∧
    (r.status_code ≠ 200 →
        (transcribe_audio token net file).1 =
          [("error",
            "API Error: " ++ toString r.status_code ++ " - " ++ r.text)]) := by
  constructor
  · intro h j hj
    simp [transcribe_audio, transcribe_try_body, UploadedFile.read, hr, h, hj]
  · intro h
    simp [transcribe_audio, transcribe_try_body, UploadedFile.read, hr, h]

/-- Witness for `status_200_amended`: both branches at concrete inputs — a
200 response with `text` field yields that body, a 503 response yields the
`API Error` dict. -/
theorem status_200_amended_witness :
    (transcribe_audio "tok" netOK file1).1 = [("text", "hi")] ∧
    (transcribe_audio "tok" net503 file1).1 =
      [("error", "API Error: 503 - overloaded")] :=
  ⟨(status_200_amended "tok" netOK file1 ⟨200, "", .ok [("text", "hi")]⟩
      rfl).1 rfl _ rfl,
   (status_200_amended "tok" net503 file1
      ⟨503, "overloaded", .error "Expecting value"⟩ rfl).2 (by decide)⟩

/-- C6, counterexample: two different non-`en` language selections make the
language-change block (lines 96-98) issue exactly the same request — the
issued request carries no language value at all, so the selected code is not
passed through to the remote call. -/
theorem language_not_in_request :
    (language_change_step "tok" netOK "es" file1 []).2.2 =
      (language_change_step "tok" netOK "fr" file1 []).2.2 ∧
    (language_change_step "tok" netOK "es" file1 []).2.2 =
      [requestOf "tok" [1, 2, 3]] ∧
    ("es" : String) ≠ "fr" :=
  ⟨rfl, rfl, by decide⟩

/-- C6, amended: selecting any non-`en` language re-issues the request, but
the issued request is independent of which language was selected — it is the
same POST of the stream's unread bytes with the bearer header, carrying no
language value; selecting `en` issues no new request. -/
theorem language_amended (token : String) (net : Request → NetOutcome)
    (file : UploadedFile) (result0 : Json) (lang lang' : String)
    (h : lang ≠ "en") (h' : lang' ≠ "en") :
    language_change_step token net lang file result0 =
      language_change_step token net lang' file result0 ∧
    (language_change_step token net lang file result0).2.2 =
      [requestOf token (file.content.drop file.pos)] ∧
    language_change_step token net "en" file result0 = (result0, file, []) := by
  refine ⟨?_, ?_, ?_⟩
  · simp [language_change_step, h, h']
  · simp [language_change_step, h, transcribe_reqs_eq]
  · simp [language_change_step]

/-- Witness for `language_amended` at the concrete selections `es`, `fr`. -/
theorem language_amended_witness :
    language_change_step "tok" netOK "es" file1 [] =
      language_change_step "tok" netOK "fr" file1 [] ∧
    (language_change_step "tok" netOK "es" file1 []).2.2 =
      [requestOf "tok" [1, 2, 3]] ∧
    language_change_step "tok" netOK "en" file1 [] = ([], file1, []) :=
  language_amended "tok" netOK file1 [] "es" "fr" (by decide) (by decide)

/-- C7, counterexample: a 200 response whose JSON body carries both a `text`
and an `error` field makes `transcribe_audio` return a value in which both
variants are populated at once — the result is not a tagged union with
exactly one variant. -/
theorem result_both_variants :
    Json.hasKey (transcribe_audio "tok" netBoth file1).1 "text" = true ∧
    Json.hasKey (transcribe_audio "tok" netBoth file1).1 "error" = true :=
  ⟨rfl, rfl⟩

/-- C7, amended: the result of `transcribe_audio` is either the raw parsed
JSON body of a 200 response — which may contain `text`, `error`, both, or
neither — or an `{"error": ...}` dict with no `text` field (built on any
exception or non-200 status); only the latter shape is guaranteed to
populate exactly one variant. -/
theorem result_variants_amended (token : String) (net : Request → NetOutcome)
    (file : UploadedFile) :
    (∃ j, (transcribe_audio token net file).1 = j ∧
        ∃ r, net (requestOf token (file.content.drop file.pos)) = .resp r ∧
          r.status_code = 200 ∧ r.jsonOutcome = .ok j) ∨
    (∃ e, (transcribe_audio token net file).1 = [("error", e)] ∧
        Json.hasKey [("error", e)] "text" = false) := by
  cases hn : net (requestOf token (file.content.drop file.pos)) with
  | exc e =>
    right
    exact ⟨e,
      by simp [transcribe_audio, transcribe_try_body, UploadedFile.read, hn],
      rfl⟩
  | resp r =>
    by_cases h : r.status_code = 200
    · cases hj : r.jsonOutcome with
      | ok j =>
        left
        exact ⟨j,
          by simp [transcribe_audio, transcribe_try_body, UploadedFile.read,
            hn, h, hj],
          r, rfl, h, hj⟩
      | error e =>
        right
        exact ⟨e,
          by simp [transcribe_audio, transcribe_try_body, UploadedFile.read,
            hn, h, hj],
          rfl⟩
    · right
      exact ⟨"API Error: " ++ toString r.status_code ++ " - " ++ r.text,
        by simp [transcribe_audio, transcribe_try_body, UploadedFile.read,
          hn, h],
        rfl⟩

/-- C9, counterexample: a message containing a newline produces a log entry
that spans two lines — the appended text contains two newline characters —
so not every written entry is a single complete line. -/
theorem log_entry_multiline_counterexample :
    log_error "T" "a\nb" "" = "T: a\nb\n" ∧
    countNewlines "T: a\nb\n" = 2 :=
  ⟨rfl, by decide⟩

/-- C9, amended: each write appends `<timestamp>: <message>` plus a
terminating newline to the existing log content, preserving the prior
content unchanged as a prefix (append-only); the appended entry is a single
complete line exactly when the rendered timestamp and the message contain no
newline themselves. -/
theorem log_error_amended (now msg logContent : String) :
    log_error now msg logContent = logContent ++ (now ++ ": " ++ msg ++ "\n") ∧
    (countNewlines now = 0 → countNewlines msg = 0 →
      countNewlines (now ++ ": " ++ msg ++ "\n") = 1) := by
  refine ⟨rfl, fun hn hm => ?_⟩
  simp only [countNewlines, String.data_append, List.count_append] at *
  simp [hn, hm]

/-- Witness for `log_error_amended` at a concrete timestamp and message. -/
theorem log_error_amended_witness :
    log_error "2026-01-01T00:00:00" "connection refused" "old\n" =
      "old\n" ++ ("2026-01-01T00:00:00" ++ ": " ++ "connection refused" ++ "\n") ∧
    countNewlines ("2026-01-01T00:00:00" ++ ": " ++ "connection refused" ++ "\n") = 1 :=
  ⟨(log_error_amended "2026-01-01T00:00:00" "connection refused" "old\n").1,
   (log_error_amended "2026-01-01T00:00:00" "connection refused" "old\n").2
     (by decide) (by decide)⟩

end VoiceScribe
